import Mathlib

/-!
Verification of the recdotgov data-acquisition pipeline (fetch.py, adk_agent.py)
against its natural-language specification.

The embedding mirrors fetch.py: the filesystem is an association list from
structured paths to file contents, network responses are explicit oracle
values, and every fallible operation returns its outcome as data.  File
names produced by the pipeline (avail_<ID>.json, avail_<ID>.json.tmp,
download.csv, all_avail_<MONTH>.json[.tmpmerge]) never collide across
constructors — a .json name never equals a .tmp name — so paths are
modelled as an inductive type.
-/

/-- Generic association-list lookup (first match wins), modelling a
directory of files keyed by path. -/
def lookupKV {α β : Type} [DecidableEq α] : List (α × β) → α → Option β
  | [], _ => none
  | (k, v) :: m, key => if k = key then some v else lookupKV m key

/-- Remove every binding of a key (models deleting a file). -/
def eraseKV {α β : Type} [DecidableEq α] : List (α × β) → α → List (α × β)
  | [], _ => []
  | (k, v) :: m, key => if k = key then eraseKV m key else (k, v) :: eraseKV m key

/-- Create or overwrite a binding (models writing a file). -/
def setKV {α β : Type} [DecidableEq α] (m : List (α × β)) (key : α) (v : β) :
    List (α × β) :=
  (key, v) :: eraseKV m key

/-- Paths touched by fetch.py.  `availOut f` stands for temp/avail_<f>.json,
`availTmp f` for temp/avail_<f>.json.tmp, `downloadCsv` for download.csv. -/
inductive FPath where
  | availOut (facilityId : String)
  | availTmp (facilityId : String)
  | downloadCsv
deriving DecidableEq

/-- The filesystem: a map from paths to file contents. -/
abbrev FS := List (FPath × String)

/-- Possible outcomes of the HTTP GET issued by fetch_availability
(fetch.py lines 292-297): a 200 response whose JSON body serializes to
`body`, a 429, another HTTP error status (raise_for_status throws
HTTPError), or a transport-level RequestException. -/
inductive FetchResponse where
  | success (body : String)
  | rateLimited
  | httpError (code : Nat)
  | transportError (excName : String)
deriving DecidableEq

/-- Result of one fetch_availability call: the returned boolean, the
filesystem afterwards, and how many network requests were issued. -/
structure FetchResult where
  success : Bool
  fs : FS
  netCalls : Nat
deriving DecidableEq

/-- The skip guard of fetch_availability (fetch.py line 282):
output file exists and has size greater than zero. -/
def skipGuard (fs : FS) (facilityId : String) : Bool :=
  match lookupKV fs (FPath.availOut facilityId) with
  | some content => decide (0 < content.length)
  | none => false

/-- The network-touching part of fetch_availability (fetch.py lines
290-328).  429: delete any partial temp file, return False.  Success:
write the temp file, atomically rename it onto the output path, return
True.  HTTPError / RequestException: delete any partial temp file,
return False.  Every branch returns normally — nothing propagates. -/
def fetchRequest (facilityId : String) (fs : FS) (resp : FetchResponse) : FetchResult :=
  let temp_file := FPath.availTmp facilityId
  let output_file := FPath.availOut facilityId
  match resp with
  | .rateLimited => ⟨false, eraseKV fs temp_file, 1⟩
  | .success body =>
      let fs1 := setKV fs temp_file body
      let fs2 := setKV (eraseKV fs1 temp_file) output_file body
      ⟨true, fs2, 1⟩
  | .httpError _ => ⟨false, eraseKV fs temp_file, 1⟩
  | .transportError _ => ⟨false, eraseKV fs temp_file, 1⟩

/-- fetch_availability (fetch.py lines 273-328): skip when the output
file already exists non-empty, otherwise perform the request. -/
def fetch_availability (facilityId month : String) (fs : FS) (resp : FetchResponse) :
    FetchResult :=
  if skipGuard fs facilityId then ⟨true, fs, 0⟩ else fetchRequest facilityId fs resp

/-- Classifies the failure-kind responses of the availability endpoint. -/
def isFailureResponse : FetchResponse → Bool
  | .success _ => false
  | .rateLimited => true
  | .httpError _ => true
  | .transportError _ => true

/-- Outcome of the sequential fetch loop of main (fetch.py lines
453-470): the ids for which fetch_availability was invoked, in order,
the final filesystem, and whether the loop ran to completion (False
models the sys.exit(1) taken on the first failed fetch). -/
structure RunResult where
  attempted : List String
  fs : FS
  completed : Bool
deriving DecidableEq

/-- The sequential fetch loop of main (fetch.py lines 453-470): iterate
ids in list order with one shared session; on the first fetch returning
False, exit immediately. -/
def runSequential (month : String) (resp : String → FetchResponse) :
    List String → FS → RunResult
  | [], fs => ⟨[], fs, true⟩
  | facilityId :: rest, fs =>
    let r := fetch_availability facilityId month fs (resp facilityId)
    if r.success then
      let rr := runSequential month resp rest r.fs
      ⟨facilityId :: rr.attempted, rr.fs, rr.completed⟩
    else
      ⟨[facilityId], r.fs, false⟩

/-- Response oracle for the rate-limit-abort scenario: facility B is
rate limited, every other facility succeeds. -/
def demoResp : String → FetchResponse :=
  fun facilityId => if facilityId = "B" then FetchResponse.rateLimited
                    else FetchResponse.success "x"

/-! ### ensure_download_csv (fetch.py lines 250-258) -/

/-- Side effects ensure_download_csv can trigger when the csv is absent:
downloading the RIDB zip and rebuilding download.csv with the given
arguments. -/
inductive CsvEvent where
  | downloadRidbZip
  | buildCsv (max_distance : ℚ) (location : Option String)
deriving DecidableEq

/-- ensure_download_csv (fetch.py lines 250-258): if download.csv exists
it is used as-is (no download, no rebuild); otherwise the RIDB zip is
fetched and build_download_csv writes the file.  `built` abstracts the
csv content the rebuild would produce from the RIDB data. -/
def ensure_download_csv (fs : FS) (max_distance : ℚ) (location : Option String)
    (built : String) : List CsvEvent × FS :=
  match lookupKV fs FPath.downloadCsv with
  | some _ => ([], fs)
  | none =>
      ([CsvEvent.downloadRidbZip, CsvEvent.buildCsv max_distance location],
       setKV fs FPath.downloadCsv built)

/-! ### build_download_csv (fetch.py lines 172-247), distance filter and sort -/

/-- A row of the facility/address join (fetch.py line 211), before
distances are computed. -/
structure MergedRow where
  facilityID : String
  facilityName : String
  addressStateCode : String
  facilityLatitude : ℚ
  facilityLongitude : ℚ
deriving DecidableEq

/-- A row of the written download.csv artifact (fetch.py line 235). -/
structure OutRow where
  facilityID : String
  facilityName : String
  addressStateCode : String
  distance_miles : ℚ
deriving DecidableEq

/-- pandas drop_duplicates: keep the first occurrence of each row. -/
def dropDupAux {α : Type} [DecidableEq α] (seen : List α) : List α → List α
  | [] => []
  | a :: l => if a ∈ seen then dropDupAux seen l else a :: dropDupAux (a :: seen) l

/-- pandas drop_duplicates over a whole list. -/
def dropDuplicates {α : Type} [DecidableEq α] (l : List α) : List α :=
  dropDupAux [] l

/-- The distance/filter/sort tail of build_download_csv (fetch.py lines
222-243): annotate every joined row with its distance from the center
(`dist` abstracts the haversine evaluation at the resolved center),
keep rows within max_distance, project to the output columns,
de-duplicate, and sort ascending by distance. -/
def build_download_csv (merged : List MergedRow) (dist : MergedRow → ℚ)
    (max_distance : ℚ) : List OutRow :=
  let withDistance := merged.map (fun row => (row, dist row))
  let nearby := withDistance.filter (fun rd => decide (rd.2 ≤ max_distance))
  let projected := nearby.map (fun rd =>
    OutRow.mk rd.1.facilityID rd.1.facilityName rd.1.addressStateCode rd.2)
  (dropDuplicates projected).mergeSort (fun a b => decide (a.distance_miles ≤ b.distance_miles))

/-! ### merge_availability_files (fetch.py lines 331-373) -/

/-- Does the char list start with the given pattern? -/
def startsWithChars : List Char → List Char → Bool
  | _, [] => true
  | [], _ :: _ => false
  | a :: s, b :: p => a = b && startsWithChars s p

/-- Python str.replace with a non-empty pattern: replace all
non-overlapping occurrences left to right.  Structural recursion on a
fuel argument (initialised to the string length) so the kernel can
evaluate it. -/
def replaceFuel (pat sub : List Char) : Nat → List Char → List Char
  | _, [] => []
  | 0, l => l
  | Nat.succ fuel, c :: rest =>
    if startsWithChars (c :: rest) pat then
      sub ++ replaceFuel pat sub fuel (List.drop (pat.length - 1) rest)
    else
      c :: replaceFuel pat sub fuel rest

/-- Python str.replace(pat, sub) (an empty pattern leaves the string
unchanged, a case the merge code never exercises). -/
def pyReplace (s pat sub : String) : String :=
  match pat.data with
  | [] => s
  | p :: ps => ⟨replaceFuel (p :: ps) sub.data s.data.length s.data⟩

/-- pathlib Path.stem for a name ending in ".json": drop the last five
characters. -/
def pyStemJson (name : String) : String :=
  ⟨name.data.take (name.data.length - 5)⟩

/-- Does a file name match the glob pattern avail_*.json
(fetch.py line 337)? -/
def globAvailJson (name : String) : Bool :=
  startsWithChars name.data "avail_".data
    && startsWithChars name.data.reverse ".json".data.reverse
    && decide (11 ≤ name.data.length)

/-- Facility id extraction (fetch.py line 357):
avail_file.stem.replace("avail_", ""). -/
def extractId (name : String) : String :=
  pyReplace (pyStemJson name) "avail_" ""

/-- File-writing events produced by the merge, in order. -/
inductive MergeEvent where
  | writeDirect (path : String)
  | writeTemp (path : String)
  | renameTo (src dst : String)
deriving DecidableEq

/-- The final merged artifact name all_avail_<MONTH>.json. -/
def mergedOutName (month : String) : String :=
  "all_avail_" ++ month ++ ".json"

/-- The temporary merged artifact name all_avail_<MONTH>.json.tmpmerge. -/
def mergedTmpName (month : String) : String :=
  "all_avail_" ++ month ++ ".json.tmpmerge"

/-- Python dict assignment d[k] = v on an insertion-ordered mapping:
replace in place when the key exists, else append. -/
def dictSet (m : List (String × String)) (k v : String) : List (String × String) :=
  if m.any (fun kv => decide (kv.1 = k)) then
    m.map (fun kv => if kv.1 = k then (kv.1, v) else kv)
  else
    m ++ [(k, v)]

/-- One iteration of the merge loop (fetch.py lines 350-365): skip
zero-length files, extract the facility id from the file name, parse
the content (`parse` abstracts json.load; none models
json.JSONDecodeError) and store it under the id. -/
def mergeStep (parse : String → Option String) (acc : List (String × String))
    (f : String × String) : List (String × String) :=
  if f.2.length = 0 then acc
  else
    match parse f.2 with
    | some data => dictSet acc (extractId f.1) data
    | none => acc

/-- merge_availability_files (fetch.py lines 331-373) over a directory
listing of (file name, content) pairs.  Returns the file-write events
and the merged mapping.  With no matching files the empty mapping is
written directly to the final path; otherwise the merged data is
written to the temp name and renamed onto the final name. -/
def merge_availability_files (dir : List (String × String))
    (parse : String → Option String) (month : String) :
    List MergeEvent × List (String × String) :=
  let avail_files := dir.filter (fun f => globAvailJson f.1)
  if avail_files.isEmpty then
    ([MergeEvent.writeDirect (mergedOutName month)], [])
  else
    let merged_data := avail_files.foldl (mergeStep parse) []
    ([MergeEvent.writeTemp (mergedTmpName month),
      MergeEvent.renameTo (mergedTmpName month) (mergedOutName month)],
     merged_data)

/-- The files a merge run keeps: matched by the glob, non-empty, and
parseable. -/
def keepFile (parse : String → Option String) (f : String × String) : Bool :=
  decide (0 < f.2.length) && (parse f.2).isSome

/-- The valid per-facility files of a directory: glob-matched,
non-empty, and parseable. -/
def validAvailFiles (dir : List (String × String))
    (parse : String → Option String) : List (String × String) :=
  (dir.filter (fun f => globAvailJson f.1)).filter (keepFile parse)

/-- Directory listing exhibiting colliding id extraction: both names
are matched by the glob and both reduce to facility id "1". -/
def collisionDir : List (String × String) :=
  [("avail_1.json", "d1"), ("avail_avail_1.json", "d2")]

/-! ### geocode_location (fetch.py lines 86-121) -/

/-- A coordinate field of one geocoding match: absent (indexing raises
KeyError), present but not convertible by float() (ValueError), or a
number. -/
inductive JField where
  | absent
  | numOf (value : ℚ)
  | nonNumeric (raw : String)
deriving DecidableEq

/-- One match returned by the geocoding service. -/
structure GeoMatch where
  lat : JField
  lon : JField
deriving DecidableEq

/-- Outcome of the network call inside geocode_location: a JSON list of
matches, or a requests.exceptions.RequestException (which also covers
raise_for_status on an HTTP error). -/
inductive GeoNet where
  | ok (results : List GeoMatch)
  | requestErr (excText : String)
deriving DecidableEq

/-- What geocode_location does: return coordinates or raise ValueError
with a message. -/
inductive GeoOutcome where
  | coords (lat lon : ℚ)
  | valueErr (msg : String)
deriving DecidableEq

/-- Python float(result[name]): str(KeyError) when the key is missing,
the float() conversion error when non-numeric, else the number. -/
def pyFloat (fieldName : String) (f : JField) : Except String ℚ :=
  match f with
  | .absent => .error ("\x27" ++ fieldName ++ "\x27")
  | .nonNumeric raw => .error ("could not convert string to float: \x27" ++ raw ++ "\x27")
  | .numOf v => .ok v

/-- The message of the ValueError raised by the
except (KeyError, ValueError, IndexError) handler (fetch.py line 121). -/
def invalidRespMsg (location msg : String) : String :=
  "Invalid geocoding response for \x27" ++ location ++ "\x27: " ++ msg

/-- geocode_location (fetch.py lines 86-121).  A RequestException is
wrapped as "Failed to geocode ...".  When the service returns zero
matches the code raises ValueError("Location ... not found") inside the
try block — and that ValueError is caught by the function's own
except (KeyError, ValueError, IndexError) handler on line 120 and
re-raised wrapped in the "Invalid geocoding response" message, the same
wrapper used for missing or non-numeric coordinate fields. -/
def geocode_location (location : String) (net : GeoNet) : GeoOutcome :=
  match net with
  | .requestErr e => .valueErr ("Failed to geocode \x27" ++ location ++ "\x27: " ++ e)
  | .ok results =>
    match results with
    | [] =>
        .valueErr (invalidRespMsg location
          ("Location \x27" ++ location ++ "\x27 not found"))
    | result :: _ =>
      match pyFloat "lat" result.lat with
      | .error e => .valueErr (invalidRespMsg location e)
      | .ok lat =>
        match pyFloat "lon" result.lon with
        | .error e => .valueErr (invalidRespMsg location e)
        | .ok lon => .coords lat lon

/-! ### haversine_distance (fetch.py lines 124-138) -/

/-- math.radians: degrees to radians. -/
noncomputable def radians (x : ℝ) : ℝ := x * (Real.pi / 180)

/-- haversine_distance (fetch.py lines 124-138) under the real-number
idealisation of Python floats: great-circle distance in miles on a
sphere of radius 3956. -/
noncomputable def haversine_distance (lat1 lon1 lat2 lon2 : ℝ) : ℝ :=
  let la1 := radians lat1
  let lo1 := radians lon1
  let la2 := radians lat2
  let lo2 := radians lon2
  let dlat := la2 - la1
  let dlon := lo2 - lo1
  let a := Real.sin (dlat / 2) ^ 2
    + Real.cos la1 * Real.cos la2 * Real.sin (dlon / 2) ^ 2
  let c := 2 * Real.arcsin (Real.sqrt a)
  c * 3956

/-! ### Cache tracker (adk_agent.py lines 152-204 and spec section 4.4) -/

/-- The two cache key families: one per (location, distance) candidate
list, one per availability month. -/
inductive CacheKey where
  | campgroundList (location : String) (distance : ℤ)
  | availability (month : String)
deriving DecidableEq

/-- Modelled from the spec: the CacheManager class used by
cache_manager_tool (adk_agent.py line 166) lives in cache_manager.py,
which is not part of the sources; section 4.4 of the spec defines it as
a persisted map from derived keys to creation timestamps with a single
configurable TTL (default 30 minutes), where freshness means an entry
exists and now - createdAt < ttl, and marking (re)sets createdAt to
now. -/
structure CacheManager where
  entries : List (CacheKey × ℚ)
  default_ttl_minutes : ℚ
deriving DecidableEq

/-- Modelled from the spec: markCandidateListCached — (re)set the
creation timestamp of the (location, distance) entry to now. -/
def mark_campground_list_cached (cm : CacheManager) (now : ℚ) (location : String)
    (distance : ℤ) : CacheManager :=
  { cm with entries := setKV cm.entries (CacheKey.campgroundList location distance) now }

/-- Modelled from the spec: isCandidateListFresh — an entry exists for
the derived key and now - createdAt < ttl; absence yields false. -/
def is_campground_list_fresh (cm : CacheManager) (now : ℚ) (location : String)
    (distance : ℤ) : Bool :=
  match lookupKV cm.entries (CacheKey.campgroundList location distance) with
  | some createdAt => decide (now - createdAt < cm.default_ttl_minutes)
  | none => false

/-! ## Lemmas and claim theorems -/

theorem lookupKV_eraseKV_self {α β : Type} [DecidableEq α] (m : List (α × β)) (k : α) :
    lookupKV (eraseKV m k) k = none := by
  induction m with
  | nil => rfl
  | cons kv m ih =>
    obtain ⟨k', v⟩ := kv
    by_cases h : k' = k
    · simpa [eraseKV, h] using ih
    · simpa [eraseKV, lookupKV, h] using ih

theorem lookupKV_eraseKV_ne {α β : Type} [DecidableEq α] (m : List (α × β)) (k p : α)
    (h : p ≠ k) : lookupKV (eraseKV m k) p = lookupKV m p := by
  induction m with
  | nil => rfl
  | cons kv m ih =>
    obtain ⟨k', v⟩ := kv
    by_cases hk : k' = k
    · rw [show eraseKV ((k', v) :: m) k = eraseKV m k by simp [eraseKV, hk]]
      rw [ih]
      have hne : ¬ (k' = p) := fun hp => h (hp.symm.trans hk)
      rw [show lookupKV ((k', v) :: m) p = lookupKV m p by simp [lookupKV, hne]]
    · rw [show eraseKV ((k', v) :: m) k = (k', v) :: eraseKV m k by simp [eraseKV, hk]]
      by_cases hp : k' = p
      · simp [lookupKV, hp]
      · simp [lookupKV, hp, ih]

theorem lookupKV_setKV_self {α β : Type} [DecidableEq α] (m : List (α × β)) (k : α) (v : β) :
    lookupKV (setKV m k v) k = some v := by
  simp [setKV, lookupKV]

theorem lookupKV_setKV_ne {α β : Type} [DecidableEq α] (m : List (α × β)) (k p : α) (v : β)
    (h : p ≠ k) : lookupKV (setKV m k v) p = lookupKV m p := by
  have : k ≠ p := fun hk => h hk.symm
  simp [setKV, lookupKV, this, lookupKV_eraseKV_ne m k p h]

theorem skipGuard_of_nonempty (fs : FS) (facilityId content : String)
    (hex : lookupKV fs (FPath.availOut facilityId) = some content)
    (hnz : 0 < content.length) : skipGuard fs facilityId = true := by
  simp [skipGuard, hex, hnz]

/-- C2: with an existing non-empty output file, the fetch worker returns
success immediately, issues zero network requests, and leaves the
filesystem byte-identical — under any network oracle; hence a second
invocation in a row behaves identically. -/
theorem fetch_idempotent (facilityId month : String) (fs : FS)
    (resp resp2 : FetchResponse) (content : String)
    (hex : lookupKV fs (FPath.availOut facilityId) = some content)
    (hnz : 0 < content.length) :
    fetch_availability facilityId month fs resp = ⟨true, fs, 0⟩ ∧
    fetch_availability facilityId month
      (fetch_availability facilityId month fs resp).fs resp2 = ⟨true, fs, 0⟩ := by
  have hskip := skipGuard_of_nonempty fs facilityId content hex hnz
  have h1 : fetch_availability facilityId month fs resp = ⟨true, fs, 0⟩ := by
    simp [fetch_availability, hskip]
  exact ⟨h1, by rw [h1]; simp [fetch_availability, hskip]⟩

/-- C2 witness: facility 232450 with an existing non-empty output file. -/
theorem fetch_idempotent_witness :
    lookupKV [(FPath.availOut "232450", "payload")] (FPath.availOut "232450")
      = some "payload" ∧
    0 < "payload".length ∧
    fetch_availability "232450" "2025-08" [(FPath.availOut "232450", "payload")]
      FetchResponse.rateLimited = ⟨true, [(FPath.availOut "232450", "payload")], 0⟩ ∧
    fetch_availability "232450" "2025-08"
      (fetch_availability "232450" "2025-08" [(FPath.availOut "232450", "payload")]
        FetchResponse.rateLimited).fs FetchResponse.rateLimited
      = ⟨true, [(FPath.availOut "232450", "payload")], 0⟩ := by
  have h := fetch_idempotent "232450" "2025-08"
    [(FPath.availOut "232450", "payload")] FetchResponse.rateLimited
    FetchResponse.rateLimited "payload" (by decide) (by decide)
  exact ⟨by decide, by decide, h.1, h.2⟩

/-- C7: when the guard does not skip, each failure-kind response makes
the fetch worker return False with the temp file deleted and the final
output file untouched; no branch escapes the function. -/
theorem fetch_failure_no_partial (facilityId month : String) (fs : FS)
    (resp : FetchResponse)
    (hskip : skipGuard fs facilityId = false)
    (hfail : isFailureResponse resp = true) :
    fetch_availability facilityId month fs resp
      = ⟨false, eraseKV fs (FPath.availTmp facilityId), 1⟩ ∧
    lookupKV (fetch_availability facilityId month fs resp).fs
      (FPath.availTmp facilityId) = none ∧
    lookupKV (fetch_availability facilityId month fs resp).fs
      (FPath.availOut facilityId) = lookupKV fs (FPath.availOut facilityId) := by
  have h1 : fetch_availability facilityId month fs resp
      = ⟨false, eraseKV fs (FPath.availTmp facilityId), 1⟩ := by
    cases resp with
    | success body => simp [isFailureResponse] at hfail
    | rateLimited => simp [fetch_availability, hskip, fetchRequest]
    | httpError code => simp [fetch_availability, hskip, fetchRequest]
    | transportError excName => simp [fetch_availability, hskip, fetchRequest]
  refine ⟨h1, ?_, ?_⟩
  · rw [h1]
    exact lookupKV_eraseKV_self fs (FPath.availTmp facilityId)
  · rw [h1]
    exact lookupKV_eraseKV_ne fs (FPath.availTmp facilityId)
      (FPath.availOut facilityId) (fun h => nomatch h)

/-- C7 witness: a 429 on a facility whose output file is absent. -/
theorem fetch_failure_no_partial_witness :
    skipGuard [] "232450" = false ∧
    isFailureResponse FetchResponse.rateLimited = true ∧
    fetch_availability "232450" "2025-08" [] FetchResponse.rateLimited
      = ⟨false, eraseKV [] (FPath.availTmp "232450"), 1⟩ ∧
    lookupKV (fetch_availability "232450" "2025-08" [] FetchResponse.rateLimited).fs
      (FPath.availOut "232450") = lookupKV ([] : FS) (FPath.availOut "232450") := by
  have h := fetch_failure_no_partial "232450" "2025-08" [] FetchResponse.rateLimited
    rfl rfl
  exact ⟨rfl, rfl, h.1, h.2.2⟩

/-- C10 theorem part: when download.csv already exists,
ensure_download_csv performs no download and no rebuild, leaves the
filesystem unchanged, and its behavior is independent of the distance
and location arguments. -/
theorem ensure_download_csv_skips_when_exists (fs : FS) (m1 m2 : ℚ)
    (l1 l2 : Option String) (b1 b2 c : String)
    (hex : lookupKV fs FPath.downloadCsv = some c) :
    ensure_download_csv fs m1 l1 b1 = ([], fs) ∧
    ensure_download_csv fs m1 l1 b1 = ensure_download_csv fs m2 l2 b2 := by
  constructor <;> simp [ensure_download_csv, hex]

/-- C10 witness: an existing download.csv is reused for both a
(150, none) and a (75, Yosemite) invocation. -/
theorem ensure_download_csv_skips_witness :
    lookupKV [(FPath.downloadCsv, "hdr")] FPath.downloadCsv = some "hdr" ∧
    ensure_download_csv [(FPath.downloadCsv, "hdr")] 150 none "b1"
      = ([], [(FPath.downloadCsv, "hdr")]) ∧
    ensure_download_csv [(FPath.downloadCsv, "hdr")] 150 none "b1"
      = ensure_download_csv [(FPath.downloadCsv, "hdr")] 75 (some "Yosemite") "b2" := by
  have h := ensure_download_csv_skips_when_exists [(FPath.downloadCsv, "hdr")]
    150 75 none (some "Yosemite") "b1" "b2" "hdr" (by decide)
  exact ⟨by decide, h.1, h.2⟩

theorem runSequential_nil (month : String) (resp : String → FetchResponse) (fs : FS) :
    runSequential month resp [] fs = ⟨[], fs, true⟩ := rfl

theorem runSequential_cons (month : String) (resp : String → FetchResponse)
    (facilityId : String) (rest : List String) (fs : FS) :
    runSequential month resp (facilityId :: rest) fs =
      if (fetch_availability facilityId month fs (resp facilityId)).success then
        ⟨facilityId ::
            (runSequential month resp rest
              (fetch_availability facilityId month fs (resp facilityId)).fs).attempted,
          (runSequential month resp rest
            (fetch_availability facilityId month fs (resp facilityId)).fs).fs,
          (runSequential month resp rest
            (fetch_availability facilityId month fs (resp facilityId)).fs).completed⟩
      else
        ⟨[facilityId], (fetch_availability facilityId month fs (resp facilityId)).fs, false⟩ :=
  rfl

theorem fetch_fail_eq (facilityId month : String) (fs : FS) (resp : FetchResponse)
    (h : (fetch_availability facilityId month fs resp).success = false) :
    fetch_availability facilityId month fs resp
      = ⟨false, eraseKV fs (FPath.availTmp facilityId), 1⟩ := by
  by_cases hskip : skipGuard fs facilityId = true
  · simp [fetch_availability, hskip] at h
  · rw [Bool.not_eq_true] at hskip
    cases resp with
    | success body => simp [fetch_availability, hskip, fetchRequest] at h
    | rateLimited => simp [fetch_availability, hskip, fetchRequest]
    | httpError code => simp [fetch_availability, hskip, fetchRequest]
    | transportError excName => simp [fetch_availability, hskip, fetchRequest]

/-- C1: in sequential mode the orchestrator walks the id list in order;
after any all-successful run over a block of ids, a failing fetch on the
next id terminates the run at once — the attempted ids are exactly the
successful block plus the failing id, nothing after it is attempted,
the run is marked aborted, the only filesystem change of the failing
step is deleting that id's temp file, and every file present before the
failing step (its temp file apart) is still present unchanged. -/
theorem sequential_fail_fast (month : String) (resp : String → FetchResponse)
    (pre : List String) (b : String) (post : List String) (fs : FS)
    (hpre : (runSequential month resp pre fs).completed = true)
    (hb : (fetch_availability b month (runSequential month resp pre fs).fs
      (resp b)).success = false) :
    (runSequential month resp (pre ++ b :: post) fs).attempted = pre ++ [b] ∧
    (runSequential month resp (pre ++ b :: post) fs).completed = false ∧
    (runSequential month resp (pre ++ b :: post) fs).fs
      = eraseKV (runSequential month resp pre fs).fs (FPath.availTmp b) ∧
    ∀ p v, p ≠ FPath.availTmp b →
      lookupKV (runSequential month resp pre fs).fs p = some v →
      lookupKV (runSequential month resp (pre ++ b :: post) fs).fs p = some v := by
  induction pre generalizing fs with
  | nil =>
    rw [runSequential_nil] at hpre hb
    have hfe := fetch_fail_eq b month fs (resp b) hb
    have hrun : runSequential month resp ([] ++ b :: post) fs
        = ⟨[b], eraseKV fs (FPath.availTmp b), false⟩ := by
      rw [List.nil_append, runSequential_cons, hfe]
      rfl
    rw [hrun, runSequential_nil]
    refine ⟨rfl, rfl, rfl, ?_⟩
    intro p v hne hl
    show lookupKV (eraseKV fs (FPath.availTmp b)) p = some v
    rw [lookupKV_eraseKV_ne fs (FPath.availTmp b) p hne]
    exact hl
  | cons a pre ih =>
    rw [runSequential_cons] at hpre hb
    by_cases ha : (fetch_availability a month fs (resp a)).success = true
    · rw [if_pos ha] at hpre hb
      have ihh := ih (fetch_availability a month fs (resp a)).fs hpre hb
      have e1 : runSequential month resp ((a :: pre) ++ b :: post) fs
          = ⟨a :: (runSequential month resp (pre ++ b :: post)
                (fetch_availability a month fs (resp a)).fs).attempted,
             (runSequential month resp (pre ++ b :: post)
                (fetch_availability a month fs (resp a)).fs).fs,
             (runSequential month resp (pre ++ b :: post)
                (fetch_availability a month fs (resp a)).fs).completed⟩ := by
        rw [List.cons_append, runSequential_cons, if_pos ha]
      have e2 : runSequential month resp (a :: pre) fs
          = ⟨a :: (runSequential month resp pre
                (fetch_availability a month fs (resp a)).fs).attempted,
             (runSequential month resp pre
                (fetch_availability a month fs (resp a)).fs).fs,
             (runSequential month resp pre
                (fetch_availability a month fs (resp a)).fs).completed⟩ := by
        rw [runSequential_cons, if_pos ha]
      simp only [e1, e2]
      refine ⟨?_, ihh.2.1, ihh.2.2.1, ?_⟩
      · rw [ihh.1, List.cons_append]
      · intro p v hne hl
        exact ihh.2.2.2 p v hne hl
    · rw [Bool.not_eq_true] at ha
      rw [if_neg (by simp [ha])] at hpre
      exact absurd hpre (by simp)

/-- C1 witness: the [A, B, C] rate-limit scenario — B is rate limited,
C is never attempted, A's output file is still on disk. -/
theorem sequential_fail_fast_witness :
    (runSequential "2025-08" demoResp ["A"] []).completed = true ∧
    (fetch_availability "B" "2025-08" (runSequential "2025-08" demoResp ["A"] []).fs
      (demoResp "B")).success = false ∧
    (runSequential "2025-08" demoResp ["A", "B", "C"] []).attempted = ["A", "B"] ∧
    (runSequential "2025-08" demoResp ["A", "B", "C"] []).completed = false ∧
    lookupKV (runSequential "2025-08" demoResp ["A", "B", "C"] []).fs
      (FPath.availOut "A") = some "x" := by
  have h1 : (runSequential "2025-08" demoResp ["A"] []).completed = true := by decide
  have h2 : (fetch_availability "B" "2025-08"
      (runSequential "2025-08" demoResp ["A"] []).fs (demoResp "B")).success = false := by
    decide
  have h := sequential_fail_fast "2025-08" demoResp ["A"] "B" ["C"] [] h1 h2
  exact ⟨h1, h2, h.1, h.2.1,
    h.2.2.2 (FPath.availOut "A") "x" (by decide) (by decide)⟩

theorem mem_dropDupAux {α : Type} [DecidableEq α] (seen : List α) (l : List α) (a : α)
    (h : a ∈ dropDupAux seen l) : a ∈ l := by
  induction l generalizing seen with
  | nil => simpa [dropDupAux] using h
  | cons b l ih =>
    by_cases hb : b ∈ seen
    · simp only [dropDupAux, if_pos hb] at h
      exact List.mem_cons_of_mem b (ih seen h)
    · simp only [dropDupAux, if_neg hb] at h
      rcases List.mem_cons.1 h with h1 | h2
      · exact h1 ▸ List.mem_cons_self b l
      · exact List.mem_cons_of_mem b (ih (b :: seen) h2)

theorem mem_dropDuplicates {α : Type} [DecidableEq α] (l : List α) (a : α)
    (h : a ∈ dropDuplicates l) : a ∈ l :=
  mem_dropDupAux [] l a h

/-- C4: every row of the candidate list built by build_download_csv has
distance at most max_distance, and the rows are in non-decreasing
order of distance, for any distance assignment and any input table. -/
theorem build_download_csv_within_and_sorted (merged : List MergedRow)
    (dist : MergedRow → ℚ) (max_distance : ℚ) :
    (∀ r ∈ build_download_csv merged dist max_distance,
      r.distance_miles ≤ max_distance) ∧
    List.Pairwise (fun a b : OutRow => a.distance_miles ≤ b.distance_miles)
      (build_download_csv merged dist max_distance) := by
  constructor
  · intro r hr
    simp only [build_download_csv] at hr
    rw [List.mem_mergeSort] at hr
    have hr2 := mem_dropDuplicates _ r hr
    rw [List.mem_map] at hr2
    obtain ⟨rd, hrd, hproj⟩ := hr2
    rw [List.mem_filter] at hrd
    have hle : rd.2 ≤ max_distance := of_decide_eq_true hrd.2
    rw [← hproj]
    exact hle
  · have hs := @List.sorted_mergeSort OutRow
      (fun a b : OutRow => decide (a.distance_miles ≤ b.distance_miles))
      (fun a b c hab hbc =>
        decide_eq_true (le_trans (of_decide_eq_true hab) (of_decide_eq_true hbc)))
      (fun a b => by
        rcases le_total a.distance_miles b.distance_miles with h | h <;>
          simp [h])
      (dropDuplicates ((merged.map (fun row => (row, dist row))).filter
          (fun rd => decide (rd.2 ≤ max_distance)) |>.map (fun rd =>
        OutRow.mk rd.1.facilityID rd.1.facilityName rd.1.addressStateCode rd.2)))
    simp only [build_download_csv]
    exact hs.imp (fun h => of_decide_eq_true h)

theorem dictSet_of_not_mem (m : List (String × String)) (k v : String)
    (h : m.any (fun kv => decide (kv.1 = k)) = false) :
    dictSet m k v = m ++ [(k, v)] := by
  simp [dictSet, h]

theorem mergeFold_keys (parse : String → Option String) (files : List (String × String))
    (acc : List (String × String))
    (hacc : ∀ f ∈ files, keepFile parse f = true →
      acc.any (fun kv => decide (kv.1 = extractId f.1)) = false)
    (hdist : (files.filter (keepFile parse)).Pairwise
      (fun f g => extractId f.1 ≠ extractId g.1)) :
    (files.foldl (mergeStep parse) acc).map Prod.fst
      = acc.map Prod.fst ++ (files.filter (keepFile parse)).map (fun f => extractId f.1) := by
  induction files generalizing acc with
  | nil => simp
  | cons f rest ih =>
    by_cases hk : keepFile parse f = true
    · have hparts : 0 < f.2.length ∧ (parse f.2).isSome = true := by
        simpa [keepFile] using hk
      obtain ⟨data, hdata⟩ := Option.isSome_iff_exists.1 hparts.2
      have hlen : f.2.length ≠ 0 := Nat.pos_iff_ne_zero.1 hparts.1
      have hstep : mergeStep parse acc f = dictSet acc (extractId f.1) data := by
        simp [mergeStep, hlen, hdata]
      have hfil : (f :: rest).filter (keepFile parse)
          = f :: rest.filter (keepFile parse) := List.filter_cons_of_pos hk
      rw [hfil] at hdist
      have hhead := (List.pairwise_cons.1 hdist).1
      have htail := (List.pairwise_cons.1 hdist).2
      rw [List.foldl_cons, hstep,
        dictSet_of_not_mem acc (extractId f.1) data (hacc f (List.mem_cons_self f rest) hk)]
      rw [ih (acc ++ [(extractId f.1, data)]) ?_ htail]
      · rw [hfil]
        simp
      · intro g hg hkg
        rw [List.any_append]
        have h1 := hacc g (List.mem_cons_of_mem f hg) hkg
        have h2 : extractId f.1 ≠ extractId g.1 :=
          hhead g (List.mem_filter.2 ⟨hg, hkg⟩)
        simp [h1, h2]
    · have hstep : mergeStep parse acc f = acc := by
        rw [Bool.not_eq_true] at hk
        by_cases hl : f.2.length = 0
        · simp [mergeStep, hl]
        · have hpos : 0 < f.2.length := Nat.pos_of_ne_zero hl
          have hnone : parse f.2 = none := by
            cases hp : parse f.2 with
            | none => rfl
            | some d =>
              have : keepFile parse f = true := by simp [keepFile, hpos, hp]
              rw [this] at hk
              simp at hk
          simp [mergeStep, hl, hnone]
      have hfil : (f :: rest).filter (keepFile parse)
          = rest.filter (keepFile parse) := List.filter_cons_of_neg (by simp [hk])
      rw [hfil] at hdist
      rw [List.foldl_cons, hstep, ih acc (fun g hg hkg =>
        hacc g (List.mem_cons_of_mem f hg) hkg) hdist, hfil]

/-- C3 (amended): when the facility ids extracted from the valid
files' names are pairwise distinct, the merged mapping has exactly one
entry per valid (glob-matched, non-empty, parseable) file, keyed by the
extracted id; empty and malformed files are skipped without aborting,
and with zero matching files the operation writes an empty mapping and
succeeds. -/
theorem merge_keyed_by_valid_files (dir : List (String × String))
    (parse : String → Option String) (month : String)
    (hdist : (validAvailFiles dir parse).Pairwise
      (fun f g => extractId f.1 ≠ extractId g.1)) :
    ((merge_availability_files dir parse month).2).map Prod.fst
      = (validAvailFiles dir parse).map (fun f => extractId f.1) ∧
    ((merge_availability_files dir parse month).2).length
      = (validAvailFiles dir parse).length ∧
    (dir.filter (fun f => globAvailJson f.1) = [] →
      merge_availability_files dir parse month
        = ([MergeEvent.writeDirect (mergedOutName month)], [])) := by
  by_cases hemp : (dir.filter (fun f => globAvailJson f.1)).isEmpty = true
  · have heq : dir.filter (fun f => globAvailJson f.1) = [] :=
      List.isEmpty_iff.1 hemp
    have hval : validAvailFiles dir parse = [] := by
      simp [validAvailFiles, heq]
    refine ⟨?_, ?_, fun _ => ?_⟩ <;>
      simp [merge_availability_files, hemp, hval]
  · have hkeys := mergeFold_keys parse (dir.filter (fun f => globAvailJson f.1)) []
      (fun f _ _ => rfl) hdist
    have hmap : ((merge_availability_files dir parse month).2).map Prod.fst
        = (validAvailFiles dir parse).map (fun f => extractId f.1) := by
      simp only [merge_availability_files, hemp, if_false, Bool.false_eq_true]
      simpa [validAvailFiles] using hkeys
    refine ⟨hmap, ?_, fun habs => ?_⟩
    · have := congrArg List.length hmap
      simpa using this
    · rw [habs] at hemp
      simp at hemp

/-- C3 witness: a directory with one valid file, one empty file, one
malformed file and one non-matching file merges to a single entry. -/
theorem merge_keyed_witness :
    (validAvailFiles
        [("avail_232450.json", "d1"), ("avail_233.json", ""),
          ("avail_bad.json", "oops"), ("readme.txt", "hi")]
        (fun s => if s = "oops" then none else some s)).Pairwise
      (fun f g => extractId f.1 ≠ extractId g.1) ∧
    ((merge_availability_files
        [("avail_232450.json", "d1"), ("avail_233.json", ""),
          ("avail_bad.json", "oops"), ("readme.txt", "hi")]
        (fun s => if s = "oops" then none else some s) "2025-08").2).map Prod.fst
      = (validAvailFiles
        [("avail_232450.json", "d1"), ("avail_233.json", ""),
          ("avail_bad.json", "oops"), ("readme.txt", "hi")]
        (fun s => if s = "oops" then none else some s)).map (fun f => extractId f.1) ∧
    ((merge_availability_files
        [("avail_232450.json", "d1"), ("avail_233.json", ""),
          ("avail_bad.json", "oops"), ("readme.txt", "hi")]
        (fun s => if s = "oops" then none else some s) "2025-08").2).length
      = (validAvailFiles
        [("avail_232450.json", "d1"), ("avail_233.json", ""),
          ("avail_bad.json", "oops"), ("readme.txt", "hi")]
        (fun s => if s = "oops" then none else some s)).length := by
  have hd : (validAvailFiles
      [("avail_232450.json", "d1"), ("avail_233.json", ""),
        ("avail_bad.json", "oops"), ("readme.txt", "hi")]
      (fun s => if s = "oops" then none else some s)).Pairwise
      (fun f g => extractId f.1 ≠ extractId g.1) := by
    have : validAvailFiles
        [("avail_232450.json", "d1"), ("avail_233.json", ""),
          ("avail_bad.json", "oops"), ("readme.txt", "hi")]
        (fun s => if s = "oops" then none else some s)
        = [("avail_232450.json", "d1")] := by decide
    rw [this]
    exact List.pairwise_singleton _ _
  have h := merge_keyed_by_valid_files
    [("avail_232450.json", "d1"), ("avail_233.json", ""),
      ("avail_bad.json", "oops"), ("readme.txt", "hi")]
    (fun s => if s = "oops" then none else some s) "2025-08" hd
  exact ⟨hd, h.1, h.2.1⟩

/-- C3 counterexample: avail_1.json and avail_avail_1.json are both
valid (K = 2) but replace-all id extraction maps both names to facility
id "1", so the merged mapping has 1 entry, not K. -/
theorem merge_id_collision_counterexample :
    (validAvailFiles collisionDir (fun s => some s)).length = 2 ∧
    ((merge_availability_files collisionDir (fun s => some s) "2025-08").2).length = 1 := by
  decide

/-- C5 (amended): whenever at least one per-facility file matches the
glob, the merged artifact is produced exclusively by writing the temp
file and renaming it onto the final path — no direct write of the final
path occurs. -/
theorem merge_nonempty_atomic_rename (dir : List (String × String))
    (parse : String → Option String) (month : String)
    (hne : dir.filter (fun f => globAvailJson f.1) ≠ []) :
    (merge_availability_files dir parse month).1
      = [MergeEvent.writeTemp (mergedTmpName month),
         MergeEvent.renameTo (mergedTmpName month) (mergedOutName month)] ∧
    ((merge_availability_files dir parse month).1.any
      (fun e => match e with | MergeEvent.writeDirect _ => true | _ => false)) = false := by
  have hemp : (dir.filter (fun f => globAvailJson f.1)).isEmpty = false := by
    simpa [List.isEmpty_iff] using hne
  constructor <;> simp [merge_availability_files, hemp]

/-- C5 witness: a one-file directory goes through temp write plus
rename. -/
theorem merge_nonempty_atomic_rename_witness :
    [("avail_1.json", "d1")].filter (fun f : String × String => globAvailJson f.1) ≠ [] ∧
    (merge_availability_files [("avail_1.json", "d1")] (fun s => some s) "2025-08").1
      = [MergeEvent.writeTemp (mergedTmpName "2025-08"),
         MergeEvent.renameTo (mergedTmpName "2025-08") (mergedOutName "2025-08")] := by
  have hne : [("avail_1.json", "d1")].filter
      (fun f : String × String => globAvailJson f.1) ≠ [] := by decide
  exact ⟨hne,
    (merge_nonempty_atomic_rename [("avail_1.json", "d1")] (fun s => some s) "2025-08" hne).1⟩

/-- C5 counterexample: with zero per-facility files the empty mapping
is written directly to the final artifact path (fetch.py lines 340-343)
with no rename event, so not every write of the merged artifact goes
through the temp-file-then-atomic-rename discipline. -/
theorem merge_empty_direct_write_counterexample :
    (merge_availability_files [] (fun s => some s) "2025-08").1
      = [MergeEvent.writeDirect "all_avail_2025-08.json"] ∧
    ((merge_availability_files [] (fun s => some s) "2025-08").1.any
      (fun e => match e with | MergeEvent.renameTo _ _ => true | _ => false)) = false := by
  decide

/-- C6: evaluating geocode_location at the failing input — a service
response with zero matches.  The code raises
ValueError("Location ... not found") inside its own try block, which its
except (KeyError, ValueError, IndexError) handler catches and re-wraps
in the same "Invalid geocoding response" message used for malformed
responses (second conjunct shows a missing-field response), so the
zero-match failure does not surface as a distinct error kind; network
failures alone keep a distinct "Failed to geocode" message (third
conjunct), and a well-formed first match returns its coordinates
(fourth conjunct). -/
theorem geocode_not_found_wrapped :
    geocode_location "Nowhere USA" (GeoNet.ok [])
      = GeoOutcome.valueErr
          "Invalid geocoding response for \x27Nowhere USA\x27: Location \x27Nowhere USA\x27 not found" ∧
    geocode_location "Nowhere USA" (GeoNet.ok [⟨JField.absent, JField.absent⟩])
      = GeoOutcome.valueErr "Invalid geocoding response for \x27Nowhere USA\x27: \x27lat\x27" ∧
    geocode_location "Tahoe" (GeoNet.requestErr "timeout")
      = GeoOutcome.valueErr "Failed to geocode \x27Tahoe\x27: timeout" ∧
    geocode_location "Tahoe" (GeoNet.ok [⟨JField.numOf 38, JField.numOf (-120)⟩])
      = GeoOutcome.coords 38 (-120) := by
  refine ⟨rfl, rfl, rfl, rfl⟩

/-- C8: marking the candidate list cached makes it fresh at that
instant (for any positive TTL), it is stale again once time has
advanced beyond the TTL with no re-mark, and a key with no entry is
reported not fresh without raising. -/
theorem cache_freshness (cm : CacheManager) (now now2 : ℚ) (location : String)
    (distance : ℤ)
    (httl : 0 < cm.default_ttl_minutes)
    (hadv : now + cm.default_ttl_minutes < now2) :
    is_campground_list_fresh (mark_campground_list_cached cm now location distance)
      now location distance = true ∧
    is_campground_list_fresh (mark_campground_list_cached cm now location distance)
      now2 location distance = false ∧
    (lookupKV cm.entries (CacheKey.campgroundList location distance) = none →
      is_campground_list_fresh cm now location distance = false) := by
  have hlook : lookupKV
      (mark_campground_list_cached cm now location distance).entries
      (CacheKey.campgroundList location distance) = some now :=
    lookupKV_setKV_self cm.entries (CacheKey.campgroundList location distance) now
  refine ⟨?_, ?_, ?_⟩
  · simp only [is_campground_list_fresh, hlook]
    simp [mark_campground_list_cached, sub_self, httl]
  · simp only [is_campground_list_fresh, hlook]
    have : ¬ (now2 - now < cm.default_ttl_minutes) := by
      rw [not_lt]
      linarith
    simp [mark_campground_list_cached, this]
  · intro hnone
    simp [is_campground_list_fresh, hnone]

/-- C8 witness: an empty cache with the default 30-minute TTL, marked
at time 0 and queried at times 0 and 31. -/
theorem cache_freshness_witness :
    (0 : ℚ) < 30 ∧ (0 : ℚ) + 30 < 31 ∧
    is_campground_list_fresh
      (mark_campground_list_cached ⟨[], 30⟩ 0 "South Lake Tahoe" 50)
      0 "South Lake Tahoe" 50 = true ∧
    is_campground_list_fresh
      (mark_campground_list_cached ⟨[], 30⟩ 0 "South Lake Tahoe" 50)
      31 "South Lake Tahoe" 50 = false ∧
    is_campground_list_fresh ⟨[], 30⟩ 0 "South Lake Tahoe" 50 = false := by
  have h := cache_freshness ⟨[], 30⟩ 0 31 "South Lake Tahoe" 50
    (by norm_num) (by norm_num)
  exact ⟨by norm_num, by norm_num, h.1, h.2.1, h.2.2 rfl⟩

/-- C9: the haversine great-circle distance is symmetric in its two
points, and the distance from a point to itself is zero. -/
theorem haversine_symm_and_zero :
    (∀ lat1 lon1 lat2 lon2 : ℝ,
      haversine_distance lat1 lon1 lat2 lon2 = haversine_distance lat2 lon2 lat1 lon1) ∧
    (∀ lat lon : ℝ, haversine_distance lat lon lat lon = 0) := by
  constructor
  · intro lat1 lon1 lat2 lon2
    unfold haversine_distance
    simp only []
    have h1 : Real.sin ((radians lat2 - radians lat1) / 2) ^ 2
        = Real.sin ((radians lat1 - radians lat2) / 2) ^ 2 := by
      rw [show radians lat2 - radians lat1 = -(radians lat1 - radians lat2) by ring,
        neg_div, Real.sin_neg, neg_sq]
    have h2 : Real.sin ((radians lon2 - radians lon1) / 2) ^ 2
        = Real.sin ((radians lon1 - radians lon2) / 2) ^ 2 := by
      rw [show radians lon2 - radians lon1 = -(radians lon1 - radians lon2) by ring,
        neg_div, Real.sin_neg, neg_sq]
    rw [h1, h2, mul_comm (Real.cos (radians lat1)) (Real.cos (radians lat2))]
  · intro lat lon
    simp [haversine_distance]
